import Mathlib

/-!
Shallow embedding of the JSON-file-backed CRUD route handlers of the
TrabalhoAPIrest repository (Express routes over flat JSON files).

Records are JSON objects with string-valued fields, modelled as ordered
association lists.  Each route handler becomes a pure function from the
collection state (an in-memory list, plus a file snapshot for the
file-persisting variants) and the request data to an HTTP response and the
new state.  The uuid generator, the clock (`Date.now()`) and the success of
`fs.writeFileSync` are environment inputs, so they appear as explicit
arguments.
-/

/-- A JSON object with string-valued fields, as an ordered association list
mirroring JS object property order.  Route payloads never carry duplicate
keys (they come from `JSON.parse`), so property access and assignment below
use first-binding semantics. -/
abbrev Obj := List (String × String)

/-- The apostrophe character, used inside the Portuguese error messages of
the validators (for example `Estudante precisa ter um 'nome'`). -/
def apos : String := (Char.ofNat 39).toString

/-- JS property read `o.k`: value of the first binding of `k`, `none` when
the property is absent (JS `undefined`). -/
def Obj.get : Obj → String → Option String
  | [], _ => none
  | p :: rest, k => if p.1 = k then some p.2 else Obj.get rest k

/-- JS property assignment `o.k = v`: replace the binding in place when the
key exists, otherwise append it (JS appends new properties last). -/
def Obj.set : Obj → String → String → Obj
  | [], k, v => [(k, v)]
  | p :: rest, k, v => if p.1 = k then (k, v) :: rest else p :: Obj.set rest k v

/-- JS object spread `\x7b ...base, ...src \x7d`: fold the bindings of `src`
over `base`, later bindings overriding earlier ones (this is why a client
body carrying an `id` overrides the freshly generated one in the
`\x7b id: uuidv4(), ...req.body \x7d` handlers). -/
def Obj.assign (base src : Obj) : Obj :=
  src.foldl (fun acc p => Obj.set acc p.1 p.2) base

/-- JS truthiness of a string-valued property: present and nonempty
(`undefined` and `""` are falsy; every other string is truthy). -/
def truthy (o : Obj) (k : String) : Bool :=
  match Obj.get o k with
  | none => false
  | some v => v != ""

/-- The chain of `if (!payload.field) return 400 ...` checks: first required
field (in source order) that is missing or falsy, with its error message. -/
def firstMissing (o : Obj) : List (String × String) → Option String
  | [] => none
  | (k, msg) :: rest => if truthy o k then firstMissing o rest else some msg

/-- The `for (const campo in payload)` loop: first key of the payload that
is not in the `camposValidos` list. -/
def firstInvalid : Obj → List String → Option String
  | [], _ => none
  | (k, _) :: rest, valid => if valid.contains k then firstInvalid rest valid else some k

/-- The unknown-field error message `Campo '<campo>' não é válido`. -/
def campoMsg (campo : String) : String :=
  "Campo " ++ apos ++ campo ++ apos ++ " não é válido"

/-- An HTTP response as produced by the handlers: a 200 JSON object, a 200
JSON array, a 201 JSON object, an error status with a one-field JSON error
object (the field name is `erro` or `Erro` depending on the handler), or an
empty 204. -/
inductive Resp where
  | ok (body : Obj)
  | okList (body : List Obj)
  | created (body : Obj)
  | err (status : Nat) (key : String) (msg : String)
  | noContent
deriving DecidableEq, Repr

/-- The predicate of the `find`/`findIndex` callbacks `r => r.id === idp`
(an absent `id` is `undefined`, which is never `===` to a string). -/
def idMatches (idp : String) (r : Obj) : Bool := Obj.get r "id" == some idp

/-- `Array.prototype.find`: first element satisfying the predicate. -/
def findFirst (p : Obj → Bool) : List Obj → Option Obj
  | [] => none
  | r :: rest => if p r then some r else findFirst p rest

/-- `Array.prototype.findIndex`, as an `Option Nat` (the sources compare the
result with `-1` or test the found element for `null`). -/
def findIdxFirst (p : Obj → Bool) : List Obj → Option Nat
  | [] => none
  | r :: rest => if p r then some 0 else (findIdxFirst p rest).map (· + 1)

/-- `splice(i, 1)`: the list with the element at index `i` removed. -/
def spliceOne : List Obj → Nat → List Obj
  | [], _ => []
  | _ :: rest, 0 => rest
  | r :: rest, n + 1 => r :: spliceOne rest n

/-- `db[i]` for the indices produced by `findIndex` (always in bounds when
the index is not `-1`). -/
def nthObj : List Obj → Nat → Obj
  | [], _ => []
  | r :: _, 0 => r
  | _ :: rest, n + 1 => nthObj rest n

/-- Number of elements matching a predicate (used to state that an id
occurs at most once in a collection). -/
def countMatches (p : Obj → Bool) : List Obj → Nat
  | [] => 0
  | r :: rest => (if p r then 1 else 0) + countMatches p rest

/-! ## students (src/routes/studentsRoutes.js, in-memory validated variant) -/

/-- The six `if (!estudante.<campo>)` checks of the students POST/PUT
handlers, in source order, with their exact error messages. -/
def studentsRequired : List (String × String) := [
  ("name", "Estudante precisa ter um " ++ apos ++ "nome" ++ apos),
  ("age", "Estudante precisa ter uma " ++ apos ++ "idade" ++ apos),
  ("parents", "Estudante precisa ter " ++ apos ++ "pais" ++ apos),
  ("phone_number", "Estudante precisa ter um " ++ apos ++ "número de telefone" ++ apos),
  ("special_needs", "Estudante precisa ter " ++ apos ++ "necessidades especiais" ++ apos),
  ("status", "Estudante precisa ter um " ++ apos ++ "status" ++ apos)]

/-- `camposValidos` of the students handlers. -/
def studentsCampos : List String :=
  ["id", "name", "age", "parents", "phone_number", "special_needs", "status"]

/-- `POST /data/students`: set a generated id on the body, run the required
and allowed-field checks, then push onto the in-memory collection. -/
def studentsPost (db : List Obj) (body : Obj) (uuid : String) : Resp × List Obj :=
  let estudante := Obj.set body "id" uuid
  match firstMissing estudante studentsRequired with
  | some msg => (.err 400 "erro" msg, db)
  | none =>
    match firstInvalid estudante studentsCampos with
    | some campo => (.err 400 "erro" (campoMsg campo), db)
    | none => (.ok estudante, db ++ [estudante])

/-- `GET /data/students/id/:id`: linear `find` by id, 404 when absent. -/
def studentsGetById (db : List Obj) (idp : String) : Resp :=
  match findFirst (idMatches idp) db with
  | none => .err 404 "erro" "Estudante não encontrado"
  | some r => .ok r

/-- JS `toLowerCase` on one character (ASCII case folding), written
structurally so that concrete lookups evaluate inside proofs. -/
def lowerChar (c : Char) : Char :=
  if 65 ≤ c.toNat ∧ c.toNat ≤ 90 then Char.ofNat (c.toNat + 32) else c

/-- JS `toLowerCase` on a string: case-fold every character. -/
def lowerStr (s : String) : String := String.mk (s.data.map lowerChar)

/-- The callback `stu.name.toLowerCase() === nome.toLowerCase()` of the
name lookups (records in these collections always carry a `name`). -/
def nameMatches (v : String) (r : Obj) : Bool :=
  lowerStr ((Obj.get r "name").getD "") == lowerStr v

/-- `GET /data/students/name/:name`: `find` (not `filter`), so only the
first case-insensitive match is returned, as a single object. -/
def studentsGetByName (db : List Obj) (v : String) : Resp :=
  match findFirst (nameMatches v) db with
  | none => .err 404 "erro" "Estudante não encontrado"
  | some r => .ok r

/-- `PUT /data/students/id/:id`: locate by id, force the body id back to the
stored record id, validate, then overwrite in place. -/
def studentsPut (db : List Obj) (idp : String) (body : Obj) : Resp × List Obj :=
  match findIdxFirst (idMatches idp) db with
  | none => (.err 404 "erro" "Estudante não encontrado", db)
  | some i =>
    let novo := Obj.set body "id" ((Obj.get (nthObj db i) "id").getD "")
    match firstMissing novo studentsRequired with
    | some msg => (.err 400 "erro" msg, db)
    | none =>
      match firstInvalid novo studentsCampos with
      | some campo => (.err 400 "erro" (campoMsg campo), db)
      | none => (.ok novo, db.set i novo)

/-- `DELETE /data/students/id/:id`: locate by id, `splice(i, 1)` and return
the removed record as a single-element array. -/
def studentsDelete (db : List Obj) (idp : String) : Resp × List Obj :=
  match findIdxFirst (idMatches idp) db with
  | none => (.err 404 "erro" "Estudante não encontrado", db)
  | some i => (.okList [nthObj db i], spliceOne db i)

/-! ## users (src/routes/usersRoutes.js, in-memory validated variant with bcrypt) -/

/-- Modelled from the spec: the bcrypt library (salt rounds 10) is outside
this repository; its documented contract is that `bcrypt.hash` returns an
encrypted digest in the bcrypt format (a string starting with the
`$2b$10$` version/cost header), never the plaintext itself.  We model the
digest as the header followed by the input, which keeps the two properties
the claims use: the stored value is a function of the submitted password,
and it always differs from the plaintext. -/
def bcryptHash (pwd : String) : String := "$2b$10$" ++ pwd

/-- The six `if (!usuario.<campo>)` checks of the users POST/PUT handlers,
in source order, with their exact error messages. -/
def usersRequired : List (String × String) := [
  ("name", "Usuario precisa ter um " ++ apos ++ "nome" ++ apos),
  ("email", "Usuario precisa ter um " ++ apos ++ "email" ++ apos),
  ("user", "Usuario precisa ter um " ++ apos ++ "username" ++ apos),
  ("pwd", "Usuario precisa ter um " ++ apos ++ "password" ++ apos),
  ("level", "Usuario precisa ter um " ++ apos ++ "nivel" ++ apos),
  ("status", "Usuario precisa ter um " ++ apos ++ "status" ++ apos)]

/-- `camposValidos` of the users handlers. -/
def usersCampos : List String :=
  ["id", "name", "email", "user", "pwd", "level", "status"]

/-- `POST /data/users`: set a generated id, run the required checks, replace
`pwd` by its bcrypt hash, run the allowed-field check, then push. -/
def usersPost (db : List Obj) (body : Obj) (uuid : String) : Resp × List Obj :=
  let usuario := Obj.set body "id" uuid
  match firstMissing usuario usersRequired with
  | some msg => (.err 400 "erro" msg, db)
  | none =>
    let hashed := Obj.set usuario "pwd" (bcryptHash ((Obj.get usuario "pwd").getD ""))
    match firstInvalid hashed usersCampos with
    | some campo => (.err 400 "erro" (campoMsg campo), db)
    | none => (.ok hashed, db ++ [hashed])

/-- `GET /data/users/id/:id`. -/
def usersGetById (db : List Obj) (idp : String) : Resp :=
  match findFirst (idMatches idp) db with
  | none => .err 404 "erro" "Usuario não encontrado"
  | some r => .ok r

/-- `PUT /data/users/id/:id`: locate by id, force the body id back to the
stored record id, validate, hash the password, then overwrite in place. -/
def usersPut (db : List Obj) (idp : String) (body : Obj) : Resp × List Obj :=
  match findIdxFirst (idMatches idp) db with
  | none => (.err 404 "erro" "Usuario não encontrado", db)
  | some i =>
    let novo := Obj.set body "id" ((Obj.get (nthObj db i) "id").getD "")
    match firstMissing novo usersRequired with
    | some msg => (.err 400 "erro" msg, db)
    | none =>
      let hashed := Obj.set novo "pwd" (bcryptHash ((Obj.get novo "pwd").getD ""))
      match firstInvalid hashed usersCampos with
      | some campo => (.err 400 "erro" (campoMsg campo), db)
      | none => (.ok hashed, db.set i hashed)

/-! ## File-persisting variants (teachers, profissionais, appointments file
variant, students reload variant)

These modules keep a module-level `var xDB` plus a JSON file.  `loadX()`
wraps `JSON.parse(fs.readFileSync(...))` in try/catch and returns `[]` on
any failure; `saveX()` wraps `fs.writeFileSync` in try/catch and returns
the status string `"Sucesso"` or `"Erro ao salvar"`, which the handlers
only `console.log` — the response is sent regardless.  We model the file as
`Option (List Obj)` (`none` = missing or unparseable) and the success of a
write as an explicit `writeOk` argument. -/

/-- State of a file-persisting route module: the in-memory collection and
the backing file snapshot. -/
structure FileDB where
  db : List Obj
  file : Option (List Obj)
deriving DecidableEq, Repr

/-- `loadTeachers` / `loadProfissionais` / `loadAppointments` /
`loadStudents`: parse the file, degrading to `[]` on failure. -/
def loadFile (f : Option (List Obj)) : List Obj := f.getD []

/-- Module initialisation `var teachersDB = loadTeachers()`. -/
def initFileDB (f : Option (List Obj)) : FileDB := ⟨loadFile f, f⟩

/-- `GET /data/teachers`: returns the current in-memory collection
(no reload). -/
def teachersGetAll (s : FileDB) : Resp := .okList s.db

/-- `GET /data/teachers/id/:id` (mounted variant, no reload). -/
def teachersGetById (s : FileDB) (idp : String) : Resp :=
  match findFirst (idMatches idp) s.db with
  | none => .err 404 "erro" "Professor não encontrado"
  | some r => .ok r

/-- `POST /data/teachers` (mounted variant): no validation at all; the body
is spread over the generated id, so a client-supplied `id` wins; the
collection is reloaded, pushed and saved, and the record is returned with
200 whatever `saveTeachers` returned. -/
def teachersPost (s : FileDB) (body : Obj) (uuid : String) (writeOk : Bool) :
    Resp × FileDB :=
  let newTeacher := Obj.assign [("id", uuid)] body
  let db2 := loadFile s.file ++ [newTeacher]
  (.ok newTeacher, ⟨db2, if writeOk then some db2 else s.file⟩)

/-- `PUT /data/teachers/:id` (mounted variant): no validation; the body is
stored verbatim (`teachersDB[currentIndex] = newTeacher`), so the stored
record keeps whatever `id` the body carries; the (ignored) save status does
not affect the 200 response. -/
def teachersPut (s : FileDB) (idp : String) (body : Obj) (writeOk : Bool) :
    Resp × FileDB :=
  let db1 := loadFile s.file
  match findIdxFirst (idMatches idp) db1 with
  | none => (.err 404 "Erro" "Professor não encontrado!", ⟨db1, s.file⟩)
  | some i =>
    let db2 := db1.set i body
    (.ok body, ⟨db2, if writeOk then some db2 else s.file⟩)

/-- `DELETE /data/teachers/id/:id` (mounted variant): reload, splice out the
record and return it as a single-element array with 200. -/
def teachersDelete (s : FileDB) (idp : String) (writeOk : Bool) :
    Resp × FileDB :=
  let db1 := loadFile s.file
  match findIdxFirst (idMatches idp) db1 with
  | none => (.err 404 "Erro" "Professor não encontrado!", ⟨db1, s.file⟩)
  | some i =>
    let db2 := spliceOne db1 i
    (.okList [nthObj db1 i], ⟨db2, if writeOk then some db2 else s.file⟩)

/-! ## teachers, validated in-memory variant (the duplicate teachers module
with required-field and allowed-field checks) -/

/-- The five `if (!professor.<campo>)` checks of the validated teachers
POST/PUT handlers, in source order, with their exact error messages. -/
def teachersV2Required : List (String × String) := [
  ("name", "Professor precisa ter um " ++ apos ++ "nome" ++ apos),
  ("school_disciplines", "Professor precisa ter " ++ apos ++ "disciplinas escolares" ++ apos),
  ("contact", "Professor precisa ter um " ++ apos ++ "contato" ++ apos),
  ("phone_number", "Professor precisa ter um " ++ apos ++ "número de telefone" ++ apos),
  ("status", "Professor precisa ter um " ++ apos ++ "status" ++ apos)]

/-- `camposValidos` of the validated teachers handlers. -/
def teachersV2Campos : List String :=
  ["id", "name", "school_disciplines", "contact", "phone_number", "status"]

/-- `PUT /data/teachers/id/:id` (validated variant): locate by id, force the
body id back to the stored record id, validate, then overwrite in place. -/
def teachersV2Put (db : List Obj) (idp : String) (body : Obj) : Resp × List Obj :=
  match findIdxFirst (idMatches idp) db with
  | none => (.err 404 "erro" "Professor não encontrado", db)
  | some i =>
    let novo := Obj.set body "id" ((Obj.get (nthObj db i) "id").getD "")
    match firstMissing novo teachersV2Required with
    | some msg => (.err 400 "erro" msg, db)
    | none =>
      match firstInvalid novo teachersV2Campos with
      | some campo => (.err 400 "erro" (campoMsg campo), db)
      | none => (.ok novo, db.set i novo)

/-! ## appointments (file-persisting variant and validated variant) -/

/-- `GET /data/appointments/id/:id` (file-persisting variant, searches the
in-memory collection). -/
def apptGetById (s : FileDB) (idp : String) : Resp :=
  match findFirst (idMatches idp) s.db with
  | none => .err 404 "erro" "Agendamento não encontrado"
  | some r => .ok r

/-- `DELETE /data/appointments/id/:id` (file-persisting variant): reload,
splice out the record and return it as a single-element array with 200. -/
def apptDelete (s : FileDB) (idp : String) (writeOk : Bool) : Resp × FileDB :=
  let db1 := loadFile s.file
  match findIdxFirst (idMatches idp) db1 with
  | none => (.err 404 "Erro" "Apointment não encontrado!", ⟨db1, s.file⟩)
  | some i =>
    let db2 := spliceOne db1 i
    (.okList [nthObj db1 i], ⟨db2, if writeOk then some db2 else s.file⟩)

/-- The callback `app.professional.toLowerCase() === professional.toLowerCase()`
of the professional lookup. -/
def profMatches (v : String) (r : Obj) : Bool :=
  lowerStr ((Obj.get r "professional").getD "") == lowerStr v

/-- `GET /data/appointments/professional/:professional` (validated variant):
`filter`, so the full list of case-insensitive matches is returned.  The
`if (!appointments)` 404 branch in the source is dead code: a JS array,
even empty, is truthy, so the filter result is always returned with 200. -/
def apptV2GetByProfessional (db : List Obj) (v : String) : Resp :=
  .okList (db.filter (profMatches v))

/-! ## events (eventosRoutes)

`getEvents` is `JSON.parse(fs.readFileSync(eventsFilePath))` with no
try/catch, so a missing or unparseable file throws and the request fails
instead of degrading to an empty list; `saveEvents` is a bare
`fs.writeFileSync`, so a write failure also throws before any response is
sent.  Both are modelled with `Except`, `Except.error` standing for an
uncaught exception escaping the handler. -/

/-- `getEvents`: parse the events file or throw. -/
def getEvents : Option (List Obj) → Except String (List Obj)
  | none => .error "getEvents throws: missing or unparseable events.json"
  | some l => .ok l

/-- `GET /events`: list all events, or fail the request when the file does
not parse. -/
def eventsList (f : Option (List Obj)) : Except String Resp :=
  match getEvents f with
  | .error e => .error e
  | .ok l => .ok (.okList l)

/-- A single field of `req.body` copied into the new event object
(`JSON.stringify` drops an `undefined` property, so an absent field simply
does not appear). -/
def pickField (body : Obj) (k : String) : Obj :=
  match Obj.get body k with
  | none => []
  | some v => [(k, v)]

/-- `POST /events`: no validation; the id is `Date.now().toString()` (the
`now` argument) and only description/comments/date are copied from the
body; responds 201 after a successful save, or throws when the load or the
save fails. -/
def eventsPost (f : Option (List Obj)) (body : Obj) (now : String)
    (writeOk : Bool) : Except String (Resp × Option (List Obj)) :=
  match getEvents f with
  | .error e => .error e
  | .ok events =>
    let newEvent := [("id", now)] ++ pickField body "description"
      ++ pickField body "comments" ++ pickField body "date"
    let events2 := events ++ [newEvent]
    if writeOk then .ok (.created newEvent, some events2)
    else .error "saveEvents throws: write failed"

/-- `DELETE /events/:id`: filter the id out (whether or not it exists) and
respond 204 with no body; throws when the load or the save fails. -/
def eventsDelete (f : Option (List Obj)) (idp : String) (writeOk : Bool) :
    Except String (Resp × Option (List Obj)) :=
  match getEvents f with
  | .error e => .error e
  | .ok events =>
    let events2 := events.filter (fun e => !(idMatches idp e))
    if writeOk then .ok (.noContent, some events2)
    else .error "saveEvents throws: write failed"

/-! ## Basic lemmas about the object and list operations -/

theorem Obj.get_set_self (o : Obj) (k v : String) :
    Obj.get (Obj.set o k v) k = some v := by
  induction o with
  | nil => simp [Obj.set, Obj.get]
  | cons p rest ih =>
    by_cases h : p.1 = k
    · simp [Obj.set, Obj.get, h]
    · simp [Obj.set, Obj.get, h, ih]

theorem Obj.get_set_ne (o : Obj) (k v k' : String) (hne : k' ≠ k) :
    Obj.get (Obj.set o k v) k' = Obj.get o k' := by
  induction o with
  | nil => simp [Obj.set, Obj.get, Ne.symm hne]
  | cons p rest ih =>
    by_cases h : p.1 = k
    · simp [Obj.set, Obj.get, h, Ne.symm hne]
    · simp [Obj.set, Obj.get, h, ih]

theorem truthy_of_firstMissing_none {o : Obj} :
    ∀ {req : List (String × String)}, firstMissing o req = none →
      ∀ km ∈ req, truthy o km.1 = true := by
  intro req
  induction req with
  | nil => simp
  | cons km rest ih =>
    obtain ⟨k, msg⟩ := km
    intro h x hx
    by_cases ht : truthy o k
    · rcases List.mem_cons.1 hx with hx | hx
      · subst hx; exact ht
      · exact ih (by simpa [firstMissing, ht] using h) x hx
    · simp [firstMissing, ht] at h

theorem mem_of_firstInvalid_none :
    ∀ {o : Obj} {valid : List String}, firstInvalid o valid = none →
      ∀ kv ∈ o, kv.1 ∈ valid := by
  intro o
  induction o with
  | nil => simp
  | cons p rest ih =>
    obtain ⟨k, v⟩ := p
    intro valid h x hx
    by_cases hc : k ∈ valid
    · rcases List.mem_cons.1 hx with hx | hx
      · subst hx; exact hc
      · exact ih (by simpa [firstInvalid, hc] using h) x hx
    · simp [firstInvalid, hc] at h

theorem findFirst_some {p : Obj → Bool} :
    ∀ {l : List Obj} {r : Obj}, findFirst p l = some r → p r = true := by
  intro l
  induction l with
  | nil => simp [findFirst]
  | cons x rest ih =>
    intro r h
    by_cases hp : p x
    · simp [findFirst, hp] at h; subst h; exact hp
    · exact ih (by simpa [findFirst, hp] using h)

theorem findFirst_eq_none {p : Obj → Bool} :
    ∀ {l : List Obj}, (∀ x ∈ l, p x = false) → findFirst p l = none := by
  intro l
  induction l with
  | nil => simp [findFirst]
  | cons x rest ih =>
    intro h
    simp [findFirst, h x (List.mem_cons_self x rest)]
    exact ih fun y hy => h y (List.mem_cons_of_mem x hy)

theorem findFirst_append {p : Obj → Bool} :
    ∀ {l₁ l₂ : List Obj}, (∀ x ∈ l₁, p x = false) →
      findFirst p (l₁ ++ l₂) = findFirst p l₂ := by
  intro l₁
  induction l₁ with
  | nil => simp
  | cons x rest ih =>
    intro l₂ h
    simp [findFirst, h x (List.mem_cons_self x rest)]
    exact ih fun y hy => h y (List.mem_cons_of_mem x hy)

theorem findIdxFirst_props {p : Obj → Bool} :
    ∀ {l : List Obj} {i : Nat}, findIdxFirst p l = some i →
      p (nthObj l i) = true ∧ i < l.length := by
  intro l
  induction l with
  | nil => intro i h; simp [findIdxFirst] at h
  | cons x rest ih =>
    intro i h
    by_cases hp : p x
    · simp [findIdxFirst, hp] at h
      subst h
      exact ⟨hp, Nat.succ_pos _⟩
    · simp [findIdxFirst, hp, Option.map_eq_some'] at h
      obtain ⟨j, hj, hji⟩ := h
      subst hji
      obtain ⟨h1, h2⟩ := ih hj
      exact ⟨h1, Nat.succ_lt_succ h2⟩

theorem findFirst_of_countZero {p : Obj → Bool} :
    ∀ {l : List Obj}, countMatches p l = 0 → findFirst p l = none := by
  intro l
  induction l with
  | nil => simp [findFirst]
  | cons x rest ih =>
    intro h
    by_cases hp : p x
    · simp [countMatches, hp] at h
    · simp [countMatches, hp] at h
      simp [findFirst, hp, ih h]

theorem findFirst_spliceOne {p : Obj → Bool} :
    ∀ {l : List Obj} {i : Nat}, countMatches p l ≤ 1 →
      findIdxFirst p l = some i → findFirst p (spliceOne l i) = none := by
  intro l
  induction l with
  | nil => intro i _ h; simp [findIdxFirst] at h
  | cons x rest ih =>
    intro i hc h
    by_cases hp : p x
    · simp [findIdxFirst, hp] at h
      subst h
      simp [countMatches, hp] at hc
      simp only [spliceOne]
      exact findFirst_of_countZero hc
    · simp [findIdxFirst, hp, Option.map_eq_some'] at h
      obtain ⟨j, hj, hji⟩ := h
      subst hji
      simp [countMatches, hp] at hc
      simp [spliceOne, findFirst, hp]
      exact ih hc hj

theorem map_set_of_proj_eq (f : Obj → Option String) :
    ∀ (l : List Obj) (i : Nat) (x : Obj), i < l.length →
      f (nthObj l i) = f x → (l.set i x).map f = l.map f := by
  intro l
  induction l with
  | nil => intro i x h; simp at h
  | cons r rest ih =>
    intro i x hlt hproj
    cases i with
    | zero => simp [List.set, nthObj] at hproj ⊢; exact hproj.symm
    | succ n =>
      simp only [nthObj] at hproj
      simp only [List.set, List.map_cons]
      rw [ih n x (Nat.lt_of_succ_lt_succ hlt) hproj]

theorem bcryptHash_ne (s : String) : bcryptHash s ≠ s := by
  intro h
  have hl := congrArg String.length h
  rw [bcryptHash, String.length_append] at hl
  have h7 : ("$2b$10$" : String).length = 7 := rfl
  omega

/-! ## Inversion lemmas: what a 200 response from a validated handler
implies about the branch taken -/

theorem studentsPost_ok {db : List Obj} {body : Obj} {uuid : String}
    {r : Obj} {db' : List Obj}
    (h : studentsPost db body uuid = (Resp.ok r, db')) :
    firstMissing (Obj.set body "id" uuid) studentsRequired = none ∧
    firstInvalid (Obj.set body "id" uuid) studentsCampos = none ∧
    r = Obj.set body "id" uuid ∧ db' = db ++ [Obj.set body "id" uuid] := by
  simp only [studentsPost] at h
  cases hm : firstMissing (Obj.set body "id" uuid) studentsRequired with
  | some msg => rw [hm] at h; simp at h
  | none =>
    rw [hm] at h
    cases hv : firstInvalid (Obj.set body "id" uuid) studentsCampos with
    | some campo => rw [hv] at h; simp at h
    | none =>
      rw [hv] at h
      simp only [Prod.mk.injEq, Resp.ok.injEq] at h
      exact ⟨rfl, rfl, h.1.symm, h.2.symm⟩

theorem studentsPut_ok {db : List Obj} {idp : String} {body : Obj}
    {r : Obj} {db' : List Obj}
    (h : studentsPut db idp body = (Resp.ok r, db')) :
    ∃ i, findIdxFirst (idMatches idp) db = some i ∧
      r = Obj.set body "id" ((Obj.get (nthObj db i) "id").getD "") ∧
      db' = db.set i r := by
  simp only [studentsPut] at h
  split at h
  · simp at h
  · rename_i i hi
    split at h
    · simp at h
    · split at h
      · simp at h
      · simp only [Prod.mk.injEq, Resp.ok.injEq] at h
        exact ⟨i, hi, h.1.symm, by rw [← h.2, h.1]⟩

theorem usersPost_ok {db : List Obj} {body : Obj} {uuid : String}
    {r : Obj} {db' : List Obj}
    (h : usersPost db body uuid = (Resp.ok r, db')) :
    firstMissing (Obj.set body "id" uuid) usersRequired = none ∧
    r = Obj.set (Obj.set body "id" uuid) "pwd"
        (bcryptHash ((Obj.get body "pwd").getD "")) ∧
    db' = db ++ [r] := by
  simp only [usersPost] at h
  cases hm : firstMissing (Obj.set body "id" uuid) usersRequired with
  | some msg => rw [hm] at h; simp at h
  | none =>
    rw [hm] at h
    rw [Obj.get_set_ne body "id" uuid "pwd" (by decide)] at h
    cases hv : firstInvalid (Obj.set (Obj.set body "id" uuid) "pwd"
        (bcryptHash ((Obj.get body "pwd").getD ""))) usersCampos with
    | some campo => rw [hv] at h; simp at h
    | none =>
      rw [hv] at h
      simp only [Prod.mk.injEq, Resp.ok.injEq] at h
      exact ⟨rfl, h.1.symm, by rw [← h.2, h.1]⟩

theorem usersPut_ok {db : List Obj} {idp : String} {body : Obj}
    {r : Obj} {db' : List Obj}
    (h : usersPut db idp body = (Resp.ok r, db')) :
    ∃ i, findIdxFirst (idMatches idp) db = some i ∧
      r = Obj.set (Obj.set body "id" ((Obj.get (nthObj db i) "id").getD "")) "pwd"
          (bcryptHash ((Obj.get body "pwd").getD "")) ∧
      db' = db.set i r := by
  simp only [usersPut] at h
  split at h
  · simp at h
  · rename_i i hi
    rw [Obj.get_set_ne body "id" ((Obj.get (nthObj db i) "id").getD "") "pwd"
      (by decide)] at h
    split at h
    · simp at h
    · split at h
      · simp at h
      · simp only [Prod.mk.injEq, Resp.ok.injEq] at h
        exact ⟨i, hi, h.1.symm, by rw [← h.2, h.1]⟩

theorem teachersV2Put_ok {db : List Obj} {idp : String} {body : Obj}
    {r : Obj} {db' : List Obj}
    (h : teachersV2Put db idp body = (Resp.ok r, db')) :
    ∃ i, findIdxFirst (idMatches idp) db = some i ∧
      r = Obj.set body "id" ((Obj.get (nthObj db i) "id").getD "") ∧
      db' = db.set i r := by
  simp only [teachersV2Put] at h
  split at h
  · simp at h
  · rename_i i hi
    split at h
    · simp at h
    · split at h
      · simp at h
      · simp only [Prod.mk.injEq, Resp.ok.injEq] at h
        exact ⟨i, hi, h.1.symm, by rw [← h.2, h.1]⟩

/-- The record found by `findIndex(r => r.id === idp)` really has id `idp`,
and the index is in bounds. -/
theorem findIdx_id {db : List Obj} {idp : String} {i : Nat}
    (h : findIdxFirst (idMatches idp) db = some i) :
    Obj.get (nthObj db i) "id" = some idp ∧ i < db.length := by
  obtain ⟨h1, h2⟩ := findIdxFirst_props h
  refine ⟨?_, h2⟩
  simpa [idMatches] using h1

/-! ## C1: replace preserves identity -/

/-- A teacher record and a replacement body carrying a different id, for the
mounted (file-persisting) teachers PUT handler. -/
def c1TRec : Obj :=
  [("id", "a"), ("name", "Judite"), ("school_disciplines", "Artes"),
   ("contact", "j"), ("phone_number", "48"), ("status", "on")]

/-- Replacement body submitting id `b` to a record whose id is `a`. -/
def c1TBody : Obj :=
  [("id", "b"), ("name", "Maria"), ("school_disciplines", "Artes"),
   ("contact", "m"), ("phone_number", "48"), ("status", "on")]

/-- C1 counterexample: on the mounted teachers PUT, a successful replace of
the record with id `a` by a body carrying id `b` responds 200 and stores a
record whose id is `b`, not the original `a` — so a successful update does
change a record's id, refuting the claim as stated. -/
theorem C1_counterexample :
    (teachersPut (FileDB.mk [c1TRec] (some [c1TRec])) "a" c1TBody true).1 =
      Resp.ok c1TBody ∧
    Obj.get (nthObj (teachersPut (FileDB.mk [c1TRec] (some [c1TRec]))
      "a" c1TBody true).2.db 0) "id" = some "b" ∧
    (some "b" : Option String) ≠ some "a" := by decide

/-- C1 (amended): the validated in-memory update handlers (students, users)
preserve identity: a successful PUT responds with a record whose id is the
path id, and the sequence of ids of the collection is unchanged, even if
the submitted body carries a different id.  (The file-persisting handlers
store the body verbatim instead — see the counterexample.) -/
theorem C1_replace_preserves_id :
    (∀ (db : List Obj) (idp : String) (body r : Obj) (db' : List Obj),
      studentsPut db idp body = (Resp.ok r, db') →
      Obj.get r "id" = some idp ∧
      db'.map (fun x => Obj.get x "id") = db.map (fun x => Obj.get x "id")) ∧
    (∀ (db : List Obj) (idp : String) (body r : Obj) (db' : List Obj),
      usersPut db idp body = (Resp.ok r, db') →
      Obj.get r "id" = some idp ∧
      db'.map (fun x => Obj.get x "id") = db.map (fun x => Obj.get x "id")) := by
  constructor
  · intro db idp body r db' h
    obtain ⟨i, hi, hr, hdb⟩ := studentsPut_ok h
    obtain ⟨hid, hlt⟩ := findIdx_id hi
    have hrid : Obj.get r "id" = some idp := by
      rw [hr, hid]
      simp [Obj.get_set_self]
    refine ⟨hrid, ?_⟩
    rw [hdb]
    exact map_set_of_proj_eq _ db i r hlt (by rw [hid, hrid])
  · intro db idp body r db' h
    obtain ⟨i, hi, hr, hdb⟩ := usersPut_ok h
    obtain ⟨hid, hlt⟩ := findIdx_id hi
    have hrid : Obj.get r "id" = some idp := by
      rw [hr, hid]
      rw [Obj.get_set_ne _ "pwd" _ "id" (by decide)]
      simp [Obj.get_set_self]
    refine ⟨hrid, ?_⟩
    rw [hdb]
    exact map_set_of_proj_eq _ db i r hlt (by rw [hid, hrid])

/-- A stored student record. -/
def c1Stu : Obj :=
  [("id", "s1"), ("name", "Bingo"), ("age", "6"), ("parents", "Bandit"),
   ("phone_number", "48"), ("special_needs", "sd"), ("status", "on")]

/-- A replacement student body submitting a different id `zzz`. -/
def c1SBody : Obj :=
  [("id", "zzz"), ("name", "Bingo"), ("age", "7"), ("parents", "Bandit"),
   ("phone_number", "48"), ("special_needs", "sd"), ("status", "off")]

/-- The record the students PUT actually stores: the body with its id forced
back to `s1`. -/
def c1SNew : Obj :=
  [("id", "s1"), ("name", "Bingo"), ("age", "7"), ("parents", "Bandit"),
   ("phone_number", "48"), ("special_needs", "sd"), ("status", "off")]

/-- A stored user record. -/
def c1Usr : Obj :=
  [("id", "u1"), ("name", "A"), ("email", "e"), ("user", "a"),
   ("pwd", "oldhash"), ("level", "adm"), ("status", "on")]

/-- A replacement user body submitting a different id `zzz`. -/
def c1UBody : Obj :=
  [("id", "zzz"), ("name", "A"), ("email", "e"), ("user", "a"),
   ("pwd", "secret"), ("level", "adm"), ("status", "off")]

/-- The record the users PUT actually stores: id forced back to `u1` and the
password hashed. -/
def c1UNew : Obj :=
  [("id", "u1"), ("name", "A"), ("email", "e"), ("user", "a"),
   ("pwd", "$2b$10$secret"), ("level", "adm"), ("status", "off")]

/-- C1 witness: the id-preservation theorem applied to concrete students and
users updates whose bodies submit the foreign id `zzz`. -/
theorem C1_replace_preserves_id_witness :
    (Obj.get c1SNew "id" = some "s1" ∧
      [c1SNew].map (fun x => Obj.get x "id") = [c1Stu].map (fun x => Obj.get x "id")) ∧
    (Obj.get c1UNew "id" = some "u1" ∧
      [c1UNew].map (fun x => Obj.get x "id") = [c1Usr].map (fun x => Obj.get x "id")) :=
  ⟨C1_replace_preserves_id.1 [c1Stu] "s1" c1SBody c1SNew [c1SNew] (by decide),
   C1_replace_preserves_id.2 [c1Usr] "u1" c1UBody c1UNew [c1UNew] (by decide)⟩

/-! ## C2: validation rejects a missing required field -/

/-- A stored teacher record for the validated teachers variant. -/
def c2TRec : Obj :=
  [("id", "t1"), ("name", "Judite"), ("school_disciplines", "Artes"),
   ("contact", "j"), ("phone_number", "48"), ("status", "on")]

/-- A teacher body missing `status` (all other required fields present). -/
def c2Body : Obj :=
  [("name", "Judite"), ("school_disciplines", "Artes"),
   ("contact", "j"), ("phone_number", "48")]

/-- C2 counterexample: the mounted teachers PUT performs no validation, so a
body missing `status` is accepted with 200 and the underlying record is
replaced — not the claimed 400 with the collection unchanged. -/
theorem C2_counterexample :
    (teachersPut (FileDB.mk [c2TRec] (some [c2TRec])) "t1" c2Body true).1 =
      Resp.ok c2Body ∧
    (teachersPut (FileDB.mk [c2TRec] (some [c2TRec])) "t1" c2Body true).2.db =
      [c2Body] ∧
    [c2Body] ≠ [c2TRec] := by decide

/-- C2 (amended): in the validating handlers, a payload missing any required
field is rejected with 400 carrying that field's specific message and the
collection is left unchanged; in particular the validated teachers PUT with
a body missing `status` answers exactly
`\x7b"erro":"Professor precisa ter um 'status'"\x7d`.  The mounted teachers
PUT, however, performs no validation at all (see the counterexample). -/
theorem C2_missing_field_rejected :
    (∀ (db : List Obj) (body : Obj) (uuid msg : String),
      firstMissing (Obj.set body "id" uuid) studentsRequired = some msg →
      studentsPost db body uuid = (Resp.err 400 "erro" msg, db)) ∧
    (∀ (db : List Obj) (idp : String) (body : Obj) (i : Nat) (msg : String),
      findIdxFirst (idMatches idp) db = some i →
      firstMissing (Obj.set body "id" ((Obj.get (nthObj db i) "id").getD ""))
        teachersV2Required = some msg →
      teachersV2Put db idp body = (Resp.err 400 "erro" msg, db)) := by
  constructor
  · intro db body uuid msg h
    simp [studentsPost, h]
  · intro db idp body i msg hi h
    simp [teachersV2Put, hi, h]

/-- C2 witness: a students POST missing `name` is answered with the `nome`
message, and the validated teachers PUT missing `status` is answered with
exactly `Professor precisa ter um 'status'`, both leaving the collection
untouched. -/
theorem C2_missing_field_rejected_witness :
    studentsPost [] [("age", "6")] "u1" =
      (Resp.err 400 "erro" ("Estudante precisa ter um " ++ apos ++ "nome" ++ apos), []) ∧
    teachersV2Put [c2TRec] "t1" c2Body =
      (Resp.err 400 "erro" ("Professor precisa ter um " ++ apos ++ "status" ++ apos),
       [c2TRec]) :=
  ⟨C2_missing_field_rejected.1 [] [("age", "6")] "u1" _ (by decide),
   C2_missing_field_rejected.2 [c2TRec] "t1" c2Body 0 _ (by decide) (by decide)⟩

/-! ## C3: unknown fields are rejected -/

/-- A teacher body carrying the extra key `hack`, for the mounted
(validation-free) teachers POST. -/
def c3TBody : Obj :=
  [("name", "Judite"), ("school_disciplines", "Artes"), ("contact", "j"),
   ("phone_number", "48"), ("status", "on"), ("hack", "x")]

/-- C3 counterexample: the mounted teachers POST does not check fields, so a
payload with the extra key `hack` is accepted with 200 and the stored
record carries the unknown field — refuting both the 400 rejection and the
stored-records invariant. -/
theorem C3_counterexample :
    (teachersPost (FileDB.mk [] (some [])) c3TBody "t9" true).1 =
      Resp.ok (Obj.assign [("id", "t9")] c3TBody) ∧
    Obj.get (nthObj (teachersPost (FileDB.mk [] (some [])) c3TBody "t9" true).2.db 0)
      "hack" = some "x" := by decide

/-- C3 (amended): in the validating handlers (exemplified by the students
POST), a payload with a key outside `camposValidos` is rejected with 400
naming the offending field and the collection is unchanged, and every
record a successful POST stores has all its keys inside `camposValidos`.
The spread-style file-persisting handlers store unknown keys untouched
(see the counterexample). -/
theorem C3_unknown_field_rejected :
    (∀ (db : List Obj) (body : Obj) (uuid campo : String),
      firstMissing (Obj.set body "id" uuid) studentsRequired = none →
      firstInvalid (Obj.set body "id" uuid) studentsCampos = some campo →
      studentsPost db body uuid = (Resp.err 400 "erro" (campoMsg campo), db)) ∧
    (∀ (db : List Obj) (body : Obj) (uuid : String) (r : Obj) (db' : List Obj)
      (kv : String × String),
      studentsPost db body uuid = (Resp.ok r, db') → kv ∈ r →
      db' = db ++ [r] ∧ kv.1 ∈ studentsCampos) := by
  constructor
  · intro db body uuid campo hm hv
    simp [studentsPost, hm, hv]
  · intro db body uuid r db' kv h hkv
    obtain ⟨hm, hv, hr, hdb⟩ := studentsPost_ok h
    refine ⟨by rw [hdb, hr], ?_⟩
    exact mem_of_firstInvalid_none hv kv (by rw [← hr]; exact hkv)

/-- A student body with the extra key `hack`. -/
def c3SBody : Obj :=
  [("name", "B"), ("age", "6"), ("parents", "p"), ("phone_number", "4"),
   ("special_needs", "sd"), ("status", "on"), ("hack", "x")]

/-- A fully valid student body. -/
def c3SGood : Obj :=
  [("name", "B"), ("age", "6"), ("parents", "p"), ("phone_number", "4"),
   ("special_needs", "sd"), ("status", "on")]

/-- C3 witness: the students POST rejects the `hack` payload with the exact
`Campo 'hack' não é válido` message and no mutation, and a successful POST
stores only allowed keys. -/
theorem C3_unknown_field_rejected_witness :
    studentsPost [] c3SBody "u1" = (Resp.err 400 "erro" (campoMsg "hack"), []) ∧
    ([(c3SGood ++ [("id", "u1")])] = [] ++ [c3SGood ++ [("id", "u1")]] ∧
      "name" ∈ studentsCampos) :=
  ⟨C3_unknown_field_rejected.1 [] c3SBody "u1" "hack" (by decide) (by decide),
   C3_unknown_field_rejected.2 [] c3SGood "u1" (c3SGood ++ [("id", "u1")])
     [c3SGood ++ [("id", "u1")]] ("name", "B") (by decide) (by decide)⟩

/-! ## C4: create / lookup round-trip -/

/-- A user creation body with plaintext password `secret`. -/
def c4Body : Obj :=
  [("name", "A"), ("email", "e"), ("user", "a"), ("pwd", "secret"),
   ("level", "adm"), ("status", "on")]

/-- The record the users POST actually stores: the body plus the generated
id, with `pwd` replaced by its bcrypt hash. -/
def c4Rec : Obj :=
  [("name", "A"), ("email", "e"), ("user", "a"), ("pwd", "$2b$10$secret"),
   ("level", "adm"), ("status", "on"), ("id", "u1")]

/-- C4 counterexample: creating a user and immediately fetching it by the
returned id yields a record that is NOT the submitted payload plus the
generated id — the `pwd` field was altered (hashed), refuting the
no-field-altered round-trip for the users resource. -/
theorem C4_counterexample :
    usersPost [] c4Body "u1" = (Resp.ok c4Rec, [c4Rec]) ∧
    usersGetById [c4Rec] "u1" = Resp.ok c4Rec ∧
    c4Rec ≠ Obj.set c4Body "id" "u1" := by decide

/-- C4 (amended): when the generated id is fresh for the collection, a
students create followed by a point lookup with the returned id gives back
exactly the submitted payload extended with the generated id; for users the
same holds except that the `pwd` field is replaced by its bcrypt hash. -/
theorem C4_roundtrip :
    (∀ (db : List Obj) (body : Obj) (uuid : String) (r : Obj) (db' : List Obj),
      studentsPost db body uuid = (Resp.ok r, db') →
      (∀ x ∈ db, Obj.get x "id" ≠ some uuid) →
      r = Obj.set body "id" uuid ∧ studentsGetById db' uuid = Resp.ok r) ∧
    (∀ (db : List Obj) (body : Obj) (uuid : String) (r : Obj) (db' : List Obj),
      usersPost db body uuid = (Resp.ok r, db') →
      (∀ x ∈ db, Obj.get x "id" ≠ some uuid) →
      r = Obj.set (Obj.set body "id" uuid) "pwd"
          (bcryptHash ((Obj.get body "pwd").getD "")) ∧
      usersGetById db' uuid = Resp.ok r) := by
  constructor
  · intro db body uuid r db' h hfresh
    obtain ⟨hm, hv, hr, hdb⟩ := studentsPost_ok h
    have hrid : Obj.get r "id" = some uuid := by
      rw [hr]
      exact Obj.get_set_self body "id" uuid
    have hnone : ∀ x ∈ db, idMatches uuid x = false := by
      intro x hx
      simp only [idMatches, beq_eq_false_iff_ne, ne_eq]
      exact hfresh x hx
    have hfind : findFirst (idMatches uuid) db' = some r := by
      rw [hdb, ← hr, findFirst_append hnone]
      simp [findFirst, idMatches, hrid]
    exact ⟨hr, by simp [studentsGetById, hfind]⟩
  · intro db body uuid r db' h hfresh
    obtain ⟨hm, hr, hdb⟩ := usersPost_ok h
    have hrid : Obj.get r "id" = some uuid := by
      rw [hr, Obj.get_set_ne _ "pwd" _ "id" (by decide)]
      exact Obj.get_set_self body "id" uuid
    have hnone : ∀ x ∈ db, idMatches uuid x = false := by
      intro x hx
      simp only [idMatches, beq_eq_false_iff_ne, ne_eq]
      exact hfresh x hx
    have hfind : findFirst (idMatches uuid) db' = some r := by
      rw [hdb, findFirst_append hnone]
      simp [findFirst, idMatches, hrid]
    exact ⟨hr, by simp [usersGetById, hfind]⟩

/-- A fully valid student creation body. -/
def c4SBody : Obj :=
  [("name", "Bingo Heeler"), ("age", "6"), ("parents", "Bandit Heeler e Chilli Heeler"),
   ("phone_number", "48 9696 5858"), ("special_needs", "sd"), ("status", "on")]

/-- C4 witness: the round-trip theorem applied to a concrete student create
(on the empty collection, so the generated id is trivially fresh) and to
the concrete user create of the counterexample. -/
theorem C4_roundtrip_witness :
    (c4SBody ++ [("id", "s9")] = Obj.set c4SBody "id" "s9" ∧
      studentsGetById [c4SBody ++ [("id", "s9")]] "s9" =
        Resp.ok (c4SBody ++ [("id", "s9")])) ∧
    (c4Rec = Obj.set (Obj.set c4Body "id" "u1") "pwd"
        (bcryptHash ((Obj.get c4Body "pwd").getD "")) ∧
      usersGetById [c4Rec] "u1" = Resp.ok c4Rec) :=
  ⟨C4_roundtrip.1 [] c4SBody "s9" (c4SBody ++ [("id", "s9")])
      [c4SBody ++ [("id", "s9")]] (by decide) (by decide),
   C4_roundtrip.2 [] c4Body "u1" c4Rec [c4Rec] (by decide) (by decide)⟩

/-! ## C5: created ids are server-generated and fresh -/

/-- A pre-existing teacher record with id `dup`. -/
def c5Dup : Obj := [("id", "dup"), ("name", "Old")]

/-- A creation body that itself carries the id `dup`. -/
def c5Body : Obj := [("id", "dup"), ("name", "New")]

/-- C5 counterexample: the mounted teachers POST spreads the body AFTER the
generated id, so the client-supplied id `dup` overrides the generated
`fresh-uuid` and the returned record's id equals the id of a record already
present in the collection — refuting both server-generation and freshness
for the spread-style creates. -/
theorem C5_counterexample :
    (teachersPost (FileDB.mk [c5Dup] (some [c5Dup])) c5Body "fresh-uuid" true).1 =
      Resp.ok [("id", "dup"), ("name", "New")] ∧
    Obj.get [("id", "dup"), ("name", "New")] "id" = Obj.get c5Dup "id" ∧
    (some "dup" : Option String) ≠ some "fresh-uuid" := by decide

/-- C5 (amended): the validated creates (exemplified by the students POST)
assign the server-generated id by property assignment, so the returned
record carries exactly the generated uuid even when the body submits an id;
whenever the generator output is fresh for the collection, the returned id
therefore differs from the id of every pre-existing record. -/
theorem C5_generated_id_fresh :
    ∀ (db : List Obj) (body : Obj) (uuid : String) (r : Obj) (db' : List Obj)
      (x : Obj),
      studentsPost db body uuid = (Resp.ok r, db') →
      x ∈ db → Obj.get x "id" ≠ some uuid →
      Obj.get r "id" = some uuid ∧ Obj.get x "id" ≠ Obj.get r "id" := by
  intro db body uuid r db' x h hx hfresh
  obtain ⟨hm, hv, hr, hdb⟩ := studentsPost_ok h
  have hrid : Obj.get r "id" = some uuid := by
    rw [hr]
    exact Obj.get_set_self body "id" uuid
  exact ⟨hrid, by rw [hrid]; exact hfresh⟩

/-- A pre-existing student record. -/
def c5Old : Obj := [("id", "old1"), ("name", "Old")]

/-- A student body that tries to submit its own id `old1`. -/
def c5SBody : Obj :=
  [("id", "old1"), ("name", "B"), ("age", "6"), ("parents", "p"),
   ("phone_number", "4"), ("special_needs", "sd"), ("status", "on")]

/-- C5 witness: the freshness theorem applied to a concrete students create
whose body even submits the pre-existing id `old1`; the stored id is still
the generated `u-new`. -/
theorem C5_generated_id_fresh_witness :
    Obj.get (Obj.set c5SBody "id" "u-new") "id" = some "u-new" ∧
    Obj.get c5Old "id" ≠ Obj.get (Obj.set c5SBody "id" "u-new") "id" :=
  C5_generated_id_fresh [c5Old] c5SBody "u-new" (Obj.set c5SBody "id" "u-new")
    [c5Old, Obj.set c5SBody "id" "u-new"] c5Old (by decide) (by decide) (by decide)

/-! ## C6: list always succeeds, load degrades to empty -/

/-- C6 counterexample: the events list route does not degrade to an empty
collection — `getEvents` has no try/catch, so with a missing or unparseable
events file the request fails with an uncaught exception instead of
returning a list. -/
theorem C6_counterexample :
    eventsList none =
      Except.error "getEvents throws: missing or unparseable events.json" ∧
    eventsList none ≠ Except.ok (Resp.okList []) := by
  refine ⟨rfl, ?_⟩
  simp [eventsList, getEvents]

/-- C6 (amended): for the try/catch-guarded file-persisting variants
(exemplified by teachers), the module initialises its collection with
`loadTeachers`, which degrades to `[]` on a missing or corrupt file, and
the list route always answers 200 with the full in-memory collection; the
events list route succeeds only when the file parses (its loader throws
otherwise — see the counterexample). -/
theorem C6_list_total :
    (∀ f : Option (List Obj), teachersGetAll (initFileDB f) = Resp.okList (loadFile f)) ∧
    loadFile none = ([] : List Obj) ∧
    (∀ l : List Obj, eventsList (some l) = Except.ok (Resp.okList l)) :=
  ⟨fun _ => rfl, rfl, fun _ => rfl⟩

/-! ## C7: deletion answers 200 with the removed record and is terminal -/

/-- An event record with id `1`. -/
def c7Evt : Obj := [("id", "1"), ("description", "d")]

/-- C7 counterexample: the events DELETE answers 204 with no body — not the
claimed 200 carrying the removed record as a single-element array. -/
theorem C7_counterexample :
    eventsDelete (some [c7Evt]) "1" true = Except.ok (Resp.noContent, some []) ∧
    Resp.noContent ≠ Resp.okList [c7Evt] :=
  ⟨by simp [eventsDelete, getEvents, c7Evt, idMatches, Obj.get], by decide⟩

/-- C7 (amended): for the splice-style deletes (exemplified by students and
by the file-persisting appointments variant), deleting an id that occurs
exactly once answers 200 with the removed record as a single-element array,
and a subsequent point lookup of that id answers 404. -/
theorem C7_delete_terminal :
    (∀ (db : List Obj) (idp : String) (i : Nat),
      countMatches (idMatches idp) db ≤ 1 →
      findIdxFirst (idMatches idp) db = some i →
      studentsDelete db idp = (Resp.okList [nthObj db i], spliceOne db i) ∧
      studentsGetById (studentsDelete db idp).2 idp =
        Resp.err 404 "erro" "Estudante não encontrado") ∧
    (∀ (s : FileDB) (idp : String) (i : Nat) (w : Bool),
      countMatches (idMatches idp) (loadFile s.file) ≤ 1 →
      findIdxFirst (idMatches idp) (loadFile s.file) = some i →
      (apptDelete s idp w).1 = Resp.okList [nthObj (loadFile s.file) i] ∧
      apptGetById (apptDelete s idp w).2 idp =
        Resp.err 404 "erro" "Agendamento não encontrado") := by
  constructor
  · intro db idp i hc hi
    have hn := findFirst_spliceOne hc hi
    refine ⟨by simp [studentsDelete, hi], ?_⟩
    have h2 : (studentsDelete db idp).2 = spliceOne db i := by
      simp [studentsDelete, hi]
    simp [studentsGetById, h2, hn]
  · intro s idp i w hc hi
    have hn := findFirst_spliceOne hc hi
    refine ⟨by simp [apptDelete, hi], ?_⟩
    have h2 : (apptDelete s idp w).2.db = spliceOne (loadFile s.file) i := by
      simp [apptDelete, hi]
    simp [apptGetById, h2, hn]

/-- A stored student record for the deletion scenario. -/
def c7Stu : Obj := [("id", "s1"), ("name", "Bingo")]

/-- An appointments state whose file holds one record with id `a1`. -/
def c7Appt : Obj := [("id", "a1"), ("professional", "Winton Blake")]

/-- C7 witness: the deletion theorem applied to a one-element students
collection and to a one-record appointments file. -/
theorem C7_delete_terminal_witness :
    (studentsDelete [c7Stu] "s1" = (Resp.okList [nthObj [c7Stu] 0], spliceOne [c7Stu] 0) ∧
      studentsGetById (studentsDelete [c7Stu] "s1").2 "s1" =
        Resp.err 404 "erro" "Estudante não encontrado") ∧
    ((apptDelete (FileDB.mk [] (some [c7Appt])) "a1" true).1 =
        Resp.okList [nthObj (loadFile (FileDB.mk [] (some [c7Appt])).file) 0] ∧
      apptGetById (apptDelete (FileDB.mk [] (some [c7Appt])) "a1" true).2 "a1" =
        Resp.err 404 "erro" "Agendamento não encontrado") :=
  ⟨C7_delete_terminal.1 [c7Stu] "s1" 0 (by decide) (by decide),
   C7_delete_terminal.2 (FileDB.mk [] (some [c7Appt])) "a1" 0 true (by decide) (by decide)⟩

/-! ## C8: secondary-field lookups -/

/-- First of two student records sharing the name `bingo` case-insensitively. -/
def c8S1 : Obj := [("id", "s1"), ("name", "Bingo")]

/-- Second of two student records sharing the name `bingo` case-insensitively. -/
def c8S2 : Obj := [("id", "s2"), ("name", "bingo")]

/-- C8 counterexample: with two records matching the name `BINGO`
case-insensitively, the students name lookup (a `find`) answers a single
record — the first match — not the sequence of all matching records. -/
theorem C8_counterexample :
    studentsGetByName [c8S1, c8S2] "BINGO" = Resp.ok c8S1 ∧
    Resp.ok c8S1 ≠ Resp.okList [c8S1, c8S2] := by decide

/-- C8 (amended): the appointments professional lookup (a `filter`) answers
the list of exactly the records whose `professional` matches the value
case-insensitively — possibly more than one; the name lookups (exemplified
by students) instead answer only the first case-insensitive match as a
single record (see the counterexample). -/
theorem C8_secondary_lookup :
    (∀ (db : List Obj) (v : String) (l : List Obj) (r : Obj),
      apptV2GetByProfessional db v = Resp.okList l →
      (r ∈ l ↔ (r ∈ db ∧ profMatches v r = true))) ∧
    (∀ (db : List Obj) (v : String) (r : Obj),
      findFirst (nameMatches v) db = some r →
      studentsGetByName db v = Resp.ok r) := by
  constructor
  · intro db v l r h
    have hl : db.filter (profMatches v) = l := by
      simpa [apptV2GetByProfessional, Resp.okList.injEq] using h
    subst hl
    simp [List.mem_filter]
  · intro db v r h
    simp [studentsGetByName, h]

/-- First of two appointments for professional `Winton Blake`. -/
def c8A1 : Obj := [("id", "a1"), ("professional", "Winton Blake")]

/-- Second of two appointments for professional `winton blake`. -/
def c8A2 : Obj := [("id", "a2"), ("professional", "winton blake")]

/-- C8 witness: the lookup theorem applied to a two-match professional query
(both records are in the answered list) and to a concrete name query. -/
theorem C8_secondary_lookup_witness :
    (c8A2 ∈ [c8A1, c8A2] ↔
      (c8A2 ∈ [c8A1, c8A2] ∧ profMatches "WINTON BLAKE" c8A2 = true)) ∧
    studentsGetByName [c8S1] "bingo" = Resp.ok c8S1 :=
  ⟨C8_secondary_lookup.1 [c8A1, c8A2] "WINTON BLAKE" [c8A1, c8A2] c8A2 (by decide),
   C8_secondary_lookup.2 [c8S1] "bingo" c8S1 (by decide)⟩

/-! ## C9: a failed file write neither rolls back memory nor blocks the
response -/

/-- C9 counterexample: in the events module `saveEvents` is a bare
`fs.writeFileSync`, so a failing write makes the create request throw — no
success response is sent, refuting the claim for the events variant. -/
theorem C9_counterexample :
    eventsPost (some []) [("description", "d"), ("comments", "c"), ("date", "t")]
      "1700000000000" false = Except.error "saveEvents throws: write failed" := rfl

/-- C9 (amended): in the try/catch-guarded file-persisting modules
(exemplified by teachers), `saveTeachers` only yields a status string, so
when the write fails every mutating handler still answers 200 with the
mutated record, the in-memory collection keeps the mutation, and only the
file stays at its old contents; the events module instead throws on a
failed write (see the counterexample). -/
theorem C9_write_failure_ignored :
    (∀ (s : FileDB) (body : Obj) (uuid : String),
      teachersPost s body uuid false =
        (Resp.ok (Obj.assign [("id", uuid)] body),
         FileDB.mk (loadFile s.file ++ [Obj.assign [("id", uuid)] body]) s.file)) ∧
    (∀ (s : FileDB) (idp : String) (body : Obj) (i : Nat),
      findIdxFirst (idMatches idp) (loadFile s.file) = some i →
      teachersPut s idp body false =
        (Resp.ok body, FileDB.mk ((loadFile s.file).set i body) s.file)) ∧
    (∀ (s : FileDB) (idp : String) (i : Nat),
      findIdxFirst (idMatches idp) (loadFile s.file) = some i →
      teachersDelete s idp false =
        (Resp.okList [nthObj (loadFile s.file) i],
         FileDB.mk (spliceOne (loadFile s.file) i) s.file)) := by
  refine ⟨fun s body uuid => by simp [teachersPost], ?_, ?_⟩
  · intro s idp body i hi
    simp [teachersPut, hi]
  · intro s idp i hi
    simp [teachersDelete, hi]

/-- A teacher record stored in the file for the write-failure scenario. -/
def c9Rec : Obj := [("id", "t1"), ("name", "Judite")]

/-- A creation body for the write-failure scenario. -/
def c9Body : Obj := [("name", "Maria")]

/-- C9 witness: with a failing write, the teachers POST still answers 200
and appends in memory, the PUT still overwrites in memory, and the DELETE
still splices in memory, while the file keeps its old snapshot. -/
theorem C9_write_failure_ignored_witness :
    teachersPost (FileDB.mk [c9Rec] (some [c9Rec])) c9Body "t2" false =
      (Resp.ok (Obj.assign [("id", "t2")] c9Body),
       FileDB.mk (loadFile (some [c9Rec]) ++ [Obj.assign [("id", "t2")] c9Body])
         (some [c9Rec])) ∧
    teachersPut (FileDB.mk [c9Rec] (some [c9Rec])) "t1" c9Body false =
      (Resp.ok c9Body, FileDB.mk ((loadFile (some [c9Rec])).set 0 c9Body)
        (some [c9Rec])) ∧
    teachersDelete (FileDB.mk [c9Rec] (some [c9Rec])) "t1" false =
      (Resp.okList [nthObj (loadFile (some [c9Rec])) 0],
       FileDB.mk (spliceOne (loadFile (some [c9Rec])) 0) (some [c9Rec])) :=
  ⟨C9_write_failure_ignored.1 (FileDB.mk [c9Rec] (some [c9Rec])) c9Body "t2",
   C9_write_failure_ignored.2.1 (FileDB.mk [c9Rec] (some [c9Rec])) "t1" c9Body 0
     (by decide),
   C9_write_failure_ignored.2.2 (FileDB.mk [c9Rec] (some [c9Rec])) "t1" 0
     (by decide)⟩

/-! ## C10: passwords are stored hashed, never in plaintext -/

/-- C10: every successful users create or replace stores and returns a
record whose `pwd` is the bcrypt hash of the submitted `pwd`, never the
submitted plaintext value. -/
theorem C10_pwd_hashed :
    (∀ (db : List Obj) (body : Obj) (uuid : String) (r : Obj) (db' : List Obj),
      usersPost db body uuid = (Resp.ok r, db') →
      Obj.get r "pwd" = some (bcryptHash ((Obj.get body "pwd").getD "")) ∧
      Obj.get r "pwd" ≠ Obj.get body "pwd" ∧ db' = db ++ [r]) ∧
    (∀ (db : List Obj) (idp : String) (body : Obj) (r : Obj) (db' : List Obj),
      usersPut db idp body = (Resp.ok r, db') →
      Obj.get r "pwd" = some (bcryptHash ((Obj.get body "pwd").getD "")) ∧
      Obj.get r "pwd" ≠ Obj.get body "pwd") := by
  constructor
  · intro db body uuid r db' h
    obtain ⟨hm, hr, hdb⟩ := usersPost_ok h
    have hpwd : Obj.get r "pwd" = some (bcryptHash ((Obj.get body "pwd").getD "")) := by
      rw [hr]
      exact Obj.get_set_self ..
    refine ⟨hpwd, ?_, hdb⟩
    cases hq : Obj.get body "pwd" with
    | none => rw [hpwd, hq]; simp
    | some q => rw [hpwd, hq]; simpa using bcryptHash_ne q
  · intro db idp body r db' h
    obtain ⟨i, hi, hr, hdb⟩ := usersPut_ok h
    have hpwd : Obj.get r "pwd" = some (bcryptHash ((Obj.get body "pwd").getD "")) := by
      rw [hr]
      exact Obj.get_set_self ..
    refine ⟨hpwd, ?_⟩
    cases hq : Obj.get body "pwd" with
    | none => rw [hpwd, hq]; simp
    | some q => rw [hpwd, hq]; simpa using bcryptHash_ne q

/-- A user record stored with an old password hash. -/
def c10Usr : Obj :=
  [("id", "u1"), ("name", "A"), ("email", "e"), ("user", "a"),
   ("pwd", "oldhash"), ("level", "adm"), ("status", "on")]

/-- A creation body with plaintext password `pw1`. -/
def c10Body : Obj :=
  [("name", "B"), ("email", "e2"), ("user", "b"), ("pwd", "pw1"),
   ("level", "adm"), ("status", "on")]

/-- A replacement body with plaintext password `pw2`. -/
def c10PutBody : Obj :=
  [("name", "A"), ("email", "e"), ("user", "a"), ("pwd", "pw2"),
   ("level", "adm"), ("status", "on")]

/-- The record stored by the concrete users POST of the witness. -/
def c10New : Obj :=
  [("name", "B"), ("email", "e2"), ("user", "b"), ("pwd", "$2b$10$pw1"),
   ("level", "adm"), ("status", "on"), ("id", "u2")]

/-- The record stored by the concrete users PUT of the witness. -/
def c10Put : Obj :=
  [("name", "A"), ("email", "e"), ("user", "a"), ("pwd", "$2b$10$pw2"),
   ("level", "adm"), ("status", "on"), ("id", "u1")]

/-- C10 witness: the hashing theorem applied to a concrete create and a
concrete replace; both stored records carry the bcrypt digest, not the
submitted plaintext. -/
theorem C10_pwd_hashed_witness :
    (Obj.get c10New "pwd" = some (bcryptHash ((Obj.get c10Body "pwd").getD "")) ∧
      Obj.get c10New "pwd" ≠ Obj.get c10Body "pwd" ∧
      [c10Usr, c10New] = [c10Usr] ++ [c10New]) ∧
    (Obj.get c10Put "pwd" = some (bcryptHash ((Obj.get c10PutBody "pwd").getD "")) ∧
      Obj.get c10Put "pwd" ≠ Obj.get c10PutBody "pwd") :=
  ⟨C10_pwd_hashed.1 [c10Usr] c10Body "u2" c10New [c10Usr, c10New] (by decide),
   C10_pwd_hashed.2 [c10Usr] "u1" c10PutBody c10Put [c10Put] (by decide)⟩
